import Mathlib

/-!
Verification of the tournament core of `src/app.py` (World Cup 2026 scorer).

The mutable SQLAlchemy rows (`Team`, `Match`, `TournamentState`) are modelled
as immutable records inside an `AppState`; each mutating endpoint of the
source becomes a function `AppState → Except Err Unit × AppState` returning
the Python `(success, message)` pair as an `Except` (error kinds stand for
the distinct early-return messages) together with the post-call state.
Python floats are modelled as rationals; `numpy.exp` as `Real.exp`.
-/

namespace WC26

/-- Team row, mirroring the `Team` model of `src/app.py`.  Display-only
derived data (the flag code) is omitted; fractional scores are rationals. -/
structure Team where
  id : Nat
  country : String
  fifa_rank : Int
  tournament_rank : Nat
  confederation : String
  group : String
  base_points : Int
  current_points : ℚ
  total_score : ℚ
  wins : Int
  draws : Int
  losses : Int
  eliminated : Bool
  elimination_round : String
  deriving Repr, DecidableEq

/-- Match-history row, mirroring the `Match` model of `src/app.py`.
Timestamps are omitted (informational only).  Nullable columns are
`Option`s. -/
structure Match where
  id : Nat
  match_number : Nat
  match_type : String
  round_name : String
  team1_id : Nat
  team2_id : Nat
  winner_id : Option Nat
  points_earned : Option ℚ
  team1_earned : Option ℚ
  team2_earned : Option ℚ
  team1_score : Option Int
  team2_score : Option Int
  deriving Repr, DecidableEq

/-- Whole database state: the team table, the match ledger kept in
ascending primary-key order (the order `Match.id` is assigned in), the
optional `TournamentState` row, and the next free match id. -/
structure AppState where
  teams : List Team
  ledger : List Match
  tournamentState : Option String
  nextMatchId : Nat
  deriving Repr, DecidableEq

/-- Typed failure kinds, one per distinct early-return message of the
mutating functions in `src/app.py`. -/
inductive Err where
  | unknownTeam
  | alreadyEliminated
  | invalidRoundForDraw
  | invalidRound
  | roundCapacityExceeded
  | groupStageIncomplete
  | advancingCountMismatch
  | notGroupStage
  | nothingToUndo
  deriving Repr, DecidableEq

/-- The `ROUNDS` list of `src/app.py`. -/
def ROUNDS : List String :=
  ["Group Stage", "Round of 32", "Round of 16", "Quarter-finals",
   "Semi-finals", "Third Place", "Final"]

/-- The `ROUND_TEAM_LIMITS` dictionary of `src/app.py`; `.get(name, 48)`
is the default branch. -/
def roundTeamLimit (r : String) : Nat :=
  if r = "Group Stage" then 48
  else if r = "Round of 32" then 32
  else if r = "Round of 16" then 16
  else if r = "Quarter-finals" then 8
  else if r = "Semi-finals" then 4
  else if r = "Third Place" then 4
  else if r = "Final" then 2
  else 48

/-- `Team.query.filter_by(country=c).first()`. -/
def findTeam (ts : List Team) (c : String) : Option Team :=
  ts.find? fun t => decide (t.country = c)

/-- `Team.query.get(i)` (lookup by primary key). -/
def teamById (ts : List Team) (i : Nat) : Option Team :=
  ts.find? fun t => decide (t.id = i)

/-- In-place mutation of the row with primary key `i`. -/
def updTeam (ts : List Team) (i : Nat) (f : Team → Team) : List Team :=
  ts.map fun t => if t.id = i then f t else t

/-- Placeholder row used where the source would dereference a missing
foreign key (which would raise in Python; no reachable state does so). -/
def defaultTeam : Team :=
  { id := 0, country := "", fifa_rank := 0, tournament_rank := 0,
    confederation := "", group := "", base_points := 0, current_points := 0,
    total_score := 0, wins := 0, draws := 0, losses := 0,
    eliminated := false, elimination_round := "" }

/-- `get_current_round` of `src/app.py`: the stored round, defaulting to
"Group Stage" when no `TournamentState` row exists. -/
def get_current_round (s : AppState) : String :=
  match s.tournamentState with
  | some r => r
  | none => "Group Stage"

/-- `Team.query.filter_by(eliminated=False).count()`. -/
def activeCount (s : AppState) : Nat :=
  (s.teams.filter fun t => !t.eliminated).length

/-- `set_current_round` of `src/app.py`. -/
def set_current_round (s : AppState) (round_name : String) (force : Bool) :
    Except Err Unit × AppState :=
  if round_name ∉ ROUNDS then (.error .invalidRound, s)
  else if force = false ∧ roundTeamLimit round_name < activeCount s then
    (.error .roundCapacityExceeded, s)
  else (.ok (), { s with tournamentState := some round_name })

/-- `calculate_starting_points` of `src/app.py`:
`int(round(A * np.exp(-k * (tournament_rank - 1))))` with `A = 64`,
`k = 0.1`. -/
noncomputable def calculate_starting_points (tournament_rank : Nat) : Int :=
  round ((64 : ℝ) * Real.exp (-(0.1 : ℝ) * ((tournament_rank : ℝ) - 1)))

/-- Input row for team creation: one row of the merged, rank-sorted
dataframe that `initialize_teams` builds from the two CSV files (the CSV
reading and the pandas merge/sort are external input to the core). -/
structure RosterRow where
  country : String
  rank : Int
  confederation : String
  group : String
  deriving Repr, DecidableEq

/-- Team rows created by the loop of `initialize_teams`; `i` is the next
1-based `tournament_rank` (also used as the autoincrement primary key). -/
noncomputable def mkTeams : Nat → List RosterRow → List Team
  | _, [] => []
  | i, r :: rs =>
    { id := i, country := r.country, fifa_rank := r.rank, tournament_rank := i,
      confederation := r.confederation, group := r.group,
      base_points := calculate_starting_points i,
      current_points := (calculate_starting_points i : ℚ),
      total_score := 0, wins := 0, draws := 0, losses := 0,
      eliminated := false, elimination_round := "" } :: mkTeams (i + 1) rs

/-- The `initialize_teams` reset of `src/app.py`: wipes matches, teams and
the state row, rebuilds the teams from the sorted roster and stores a
fresh "Group Stage" `TournamentState` row. -/
noncomputable def init_teams (roster : List RosterRow) : AppState :=
  { teams := mkTeams 1 roster, ledger := [],
    tournamentState := some "Group Stage", nextMatchId := 1 }

/-- `record_match` of `src/app.py` (a win result). -/
def record_match (s : AppState) (winner_country loser_country : String)
    (winner_score loser_score : Option Int) : Except Err Unit × AppState :=
  let current_round := get_current_round s
  match findTeam s.teams winner_country with
  | none => (.error .unknownTeam, s)
  | some winner =>
    match findTeam s.teams loser_country with
    | none => (.error .unknownTeam, s)
    | some loser =>
      if winner.eliminated then (.error .alreadyEliminated, s)
      else if loser.eliminated then (.error .alreadyEliminated, s)
      else
        let points_earned : ℚ :=
          if current_round = "Group Stage" then (loser.base_points : ℚ)
          else loser.current_points
        let ts1 := updTeam s.teams winner.id fun t =>
          { t with total_score := t.total_score + points_earned,
                   wins := t.wins + 1 }
        let ts2 := updTeam ts1 loser.id fun t =>
          { t with losses := t.losses + 1 }
        let ts3 :=
          if current_round = "Group Stage" then ts2
          else if current_round = "Semi-finals" then
            let tsa := updTeam ts2 winner.id fun t =>
              { t with current_points := loser.current_points }
            updTeam tsa loser.id fun t =>
              { t with current_points := t.current_points * 0.75,
                       elimination_round :=
                         "Semi-finals (Available for 3rd Place)" }
          else if current_round = "Third Place" then
            let tsa := updTeam ts2 winner.id fun t =>
              { t with current_points := loser.current_points,
                       eliminated := true, elimination_round := "3rd Place" }
            updTeam tsa loser.id fun t =>
              { t with eliminated := true, elimination_round := "4th Place",
                       current_points := 0 }
          else if current_round = "Final" then
            let tsa := updTeam ts2 winner.id fun t =>
              { t with current_points := loser.current_points,
                       elimination_round := "Champion" }
            updTeam tsa loser.id fun t =>
              { t with eliminated := true, elimination_round := "2nd Place",
                       current_points := 0 }
          else
            let tsa := updTeam ts2 winner.id fun t =>
              { t with current_points := loser.current_points }
            updTeam tsa loser.id fun t =>
              { t with eliminated := true, elimination_round := current_round,
                       current_points := 0 }
        let m : Match :=
          { id := s.nextMatchId, match_number := s.ledger.length + 1,
            match_type := "win", round_name := current_round,
            team1_id := winner.id, team2_id := loser.id,
            winner_id := some winner.id, points_earned := some points_earned,
            team1_earned := none, team2_earned := none,
            team1_score := winner_score, team2_score := loser_score }
        (.ok (), { s with teams := ts3, ledger := s.ledger ++ [m],
                          nextMatchId := s.nextMatchId + 1 })

/-- `record_draw` of `src/app.py`. -/
def record_draw (s : AppState) (team1_country team2_country : String)
    (team1_score team2_score : Option Int) : Except Err Unit × AppState :=
  let current_round := get_current_round s
  if current_round ≠ "Group Stage" then (.error .invalidRoundForDraw, s)
  else
    match findTeam s.teams team1_country with
    | none => (.error .unknownTeam, s)
    | some team1 =>
      match findTeam s.teams team2_country with
      | none => (.error .unknownTeam, s)
      | some team2 =>
        if team1.eliminated then (.error .alreadyEliminated, s)
        else if team2.eliminated then (.error .alreadyEliminated, s)
        else
          let team1_earns : ℚ := (team2.base_points : ℚ) / 2
          let team2_earns : ℚ := (team1.base_points : ℚ) / 2
          let ts1 := updTeam s.teams team1.id fun t =>
            { t with total_score := t.total_score + team1_earns,
                     draws := t.draws + 1 }
          let ts2 := updTeam ts1 team2.id fun t =>
            { t with total_score := t.total_score + team2_earns,
                     draws := t.draws + 1 }
          let m : Match :=
            { id := s.nextMatchId, match_number := s.ledger.length + 1,
              match_type := "draw", round_name := current_round,
              team1_id := team1.id, team2_id := team2.id, winner_id := none,
              points_earned := none, team1_earned := some team1_earns,
              team2_earned := some team2_earns,
              team1_score := team1_score, team2_score := team2_score }
          (.ok (), { s with teams := ts2, ledger := s.ledger ++ [m],
                            nextMatchId := s.nextMatchId + 1 })

/-- Count of `Match.query.filter_by(round_name="Group Stage")` rows. -/
def groupMatchCount (s : AppState) : Nat :=
  (s.ledger.filter fun m => decide (m.round_name = "Group Stage")).length

/-- `advance_to_knockout` of `src/app.py`. -/
def advance_to_knockout (s : AppState) (advancing_countries : List String) :
    Except Err Unit × AppState :=
  let current_round := get_current_round s
  if current_round ≠ "Group Stage" then (.error .notGroupStage, s)
  else
    let group_matches_played := groupMatchCount s
    if group_matches_played < 72 then (.error .groupStageIncomplete, s)
    else if advancing_countries.length ≠ 32 then
      (.error .advancingCountMismatch, s)
    else if ¬ advancing_countries.all
        (fun c => (findTeam s.teams c).isSome) then
      (.error .unknownTeam, s)
    else
      let ts := s.teams.map fun t =>
        if t.country ∉ advancing_countries then
          { t with eliminated := true, elimination_round := "Group Stage" }
        else
          { t with current_points := max 1.0 t.total_score }
      (.ok (),
       (set_current_round { s with teams := ts } "Round of 32" true).2)

/-- Backward scan `Match.query.filter(winner_id == wid, id < lastId,
round_name != "Group Stage").order_by(id desc).first()` (ledger stored in
ascending id order). -/
def prevKnockoutWin (ms : List Match) (wid lastId : Nat) : Option Match :=
  ms.reverse.find? fun m =>
    decide (m.winner_id = some wid ∧ m.id < lastId ∧
            m.round_name ≠ "Group Stage")

/-- Unordered lookup of a team's semi-final
(`Match.query.filter((team1_id == tid) | (team2_id == tid),
round_name == "Semi-finals").first()`). -/
def semiMatchOf (ms : List Match) (tid : Nat) : Option Match :=
  ms.find? fun m =>
    decide ((m.team1_id = tid ∨ m.team2_id = tid) ∧
            m.round_name = "Semi-finals")

/-- `undo_last_match` of `src/app.py`. -/
def undo_last_match (s : AppState) : Except Err Unit × AppState :=
  match s.ledger.getLast? with
  | none => (.error .nothingToUndo, s)
  | some last_match =>
    if last_match.match_type = "draw" then
      let team1 := (teamById s.teams last_match.team1_id).getD defaultTeam
      let team2 := (teamById s.teams last_match.team2_id).getD defaultTeam
      let ts1 := updTeam s.teams team1.id fun t =>
        { t with total_score := t.total_score - last_match.team1_earned.getD 0,
                 draws := t.draws - 1 }
      let ts2 := updTeam ts1 team2.id fun t =>
        { t with total_score := t.total_score - last_match.team2_earned.getD 0,
                 draws := t.draws - 1 }
      (.ok (), { s with teams := ts2, ledger := s.ledger.dropLast })
    else
      let winner :=
        (teamById s.teams (last_match.winner_id.getD 0)).getD defaultTeam
      let loser :=
        if some last_match.team1_id = last_match.winner_id then
          (teamById s.teams last_match.team2_id).getD defaultTeam
        else (teamById s.teams last_match.team1_id).getD defaultTeam
      let pe := last_match.points_earned.getD 0
      let ts1 := updTeam s.teams winner.id fun t =>
        { t with total_score := t.total_score - pe, wins := t.wins - 1 }
      let ts2 := updTeam ts1 loser.id fun t => { t with losses := t.losses - 1 }
      let rn := last_match.round_name
      let ts3 :=
        if rn = "Group Stage" then ts2
        else if rn = "Semi-finals" then
          let tsa :=
            match prevKnockoutWin s.ledger winner.id last_match.id with
            | some pm => updTeam ts2 winner.id fun t =>
                { t with current_points := pm.points_earned.getD 0 }
            | none => updTeam ts2 winner.id fun t =>
                { t with current_points := t.total_score }
          updTeam tsa loser.id fun t =>
            { t with current_points := pe, elimination_round := "" }
        else if rn = "Third Place" then
          let tsa :=
            match semiMatchOf s.ledger winner.id with
            | some sm => updTeam ts2 winner.id fun t =>
                { t with current_points :=
                    if sm.winner_id ≠ some winner.id then
                      sm.points_earned.getD 0 * 0.75
                    else sm.points_earned.getD 0 }
            | none => ts2
          let tsb :=
            match semiMatchOf s.ledger loser.id with
            | some sm => updTeam tsa loser.id fun t =>
                { t with current_points :=
                    if sm.winner_id ≠ some loser.id then
                      sm.points_earned.getD 0 * 0.75
                    else sm.points_earned.getD 0 }
            | none => tsa
          let tsc := updTeam tsb winner.id fun t =>
            { t with elimination_round :=
                "Semi-finals (Available for 3rd Place)" }
          updTeam tsc loser.id fun t =>
            { t with eliminated := false,
                     elimination_round :=
                       "Semi-finals (Available for 3rd Place)" }
        else if rn = "Final" then
          let tsa :=
            match prevKnockoutWin s.ledger winner.id last_match.id with
            | some pm => updTeam ts2 winner.id fun t =>
                { t with current_points := pm.points_earned.getD 0 }
            | none => ts2
          let tsb :=
            match prevKnockoutWin s.ledger loser.id last_match.id with
            | some pm => updTeam tsa loser.id fun t =>
                { t with current_points := pm.points_earned.getD 0 }
            | none => tsa
          let tsc := updTeam tsb winner.id fun t =>
            { t with elimination_round := "" }
          updTeam tsc loser.id fun t =>
            { t with eliminated := false, elimination_round := "" }
        else
          let tsa :=
            match prevKnockoutWin s.ledger winner.id last_match.id with
            | some pm => updTeam ts2 winner.id fun t =>
                { t with current_points := pm.points_earned.getD 0 }
            | none => updTeam ts2 winner.id fun t =>
                { t with current_points := t.total_score }
          updTeam tsa loser.id fun t =>
            { t with current_points := pe, eliminated := false,
                     elimination_round := "" }
      (.ok (), { s with teams := ts3, ledger := s.ledger.dropLast })

/-- One mutating call of the core interface. -/
inductive Op where
  | recordWin (wc lc : String) (ws ls : Option Int)
  | recordDraw (c1 c2 : String) (s1 s2 : Option Int)
  | undoLast
  | advanceKnockout (names : List String)
  | setRound (name : String)

/-- Apply one mutating call, returning the `(result, state)` pair. -/
def applyOpE (s : AppState) : Op → Except Err Unit × AppState
  | .recordWin wc lc ws ls => record_match s wc lc ws ls
  | .recordDraw c1 c2 s1 s2 => record_draw s c1 c2 s1 s2
  | .undoLast => undo_last_match s
  | .advanceKnockout names => advance_to_knockout s names
  | .setRound name => set_current_round s name false

/-- State after one mutating call; a failed call leaves the state as it
was (all validations in the source precede all mutations). -/
def applyOp (s : AppState) (op : Op) : AppState := (applyOpE s op).2

/-- States reachable from a reset (`initialize_teams` on some roster)
through the mutating interface. -/
inductive Reachable : AppState → Prop where
  | base (roster : List RosterRow) : Reachable (init_teams roster)
  | step (s : AppState) (op : Op) : Reachable s → Reachable (applyOp s op)

/-- Sum of `total_score` over a team table. -/
def sumT (ts : List Team) : ℚ := (ts.map Team.total_score).sum

/-- Sum of all teams' `total_score` in a state. -/
def sumTotal (s : AppState) : ℚ := sumT s.teams

/-- Value a ledger entry accounts for: `points_earned` for a win entry,
`team1_earned + team2_earned` for a draw entry. -/
def entryVal (m : Match) : ℚ :=
  if m.match_type = "draw" then m.team1_earned.getD 0 + m.team2_earned.getD 0
  else m.points_earned.getD 0

/-- Sum of the accounted values over the whole ledger. -/
def ledgerTotal (s : AppState) : ℚ := (s.ledger.map entryVal).sum

/-- Primary keys of a team table. -/
def idsOf (ts : List Team) : List Nat := ts.map Team.id

/-- Referential sanity of one ledger entry: the foreign keys the undo
engine dereferences for this entry resolve to existing team rows. -/
def EntOk (ts : List Team) (m : Match) : Prop :=
  if m.match_type = "draw" then
    (teamById ts m.team1_id).isSome ∧ (teamById ts m.team2_id).isSome
  else ∃ w, m.winner_id = some w ∧ (teamById ts w).isSome

/-- Combined inductive invariant: distinct team primary keys, referential
sanity of every ledger entry, and conservation of total score. -/
def InvAll (s : AppState) : Prop :=
  (idsOf s.teams).Nodup ∧ (∀ m ∈ s.ledger, EntOk s.teams m) ∧
  sumTotal s = ledgerTotal s

/-- Scoring formula exactly as the specification words it:
`round(A * e^(-k * (rank - 1)))` with tunable constants `A = 64` (max
points at rank 1) and `k = 0.1` (decay rate). -/
noncomputable def ScoringFormula (rank : Nat) : Int :=
  round ((64 : ℝ) * Real.exp (-(0.1 : ℝ) * ((rank : ℝ) - 1)))

/-- Generic active team row used by the concrete test states. -/
def simpleTeam (i : Nat) (c : String) : Team :=
  { id := i, country := c, fifa_rank := i, tournament_rank := i,
    confederation := "X", group := "A", base_points := 10,
    current_points := 10, total_score := 0, wins := 0, draws := 0,
    losses := 0, eliminated := false, elimination_round := "" }

/-- Country name of the i-th generic team. -/
def teamName (i : Nat) : String := "T" ++ toString i

/-- Generic recorded group-stage win entry with ledger id `i`. -/
def gsEntry (i : Nat) : Match :=
  { id := i, match_number := i, match_type := "win",
    round_name := "Group Stage", team1_id := 1, team2_id := 2,
    winner_id := some 1, points_earned := some 10, team1_earned := none,
    team2_earned := none, team1_score := none, team2_score := none }

/-- Table of `k` generic active teams named `T1 … Tk`. -/
def stTeams (k : Nat) : List Team :=
  (List.range k).map fun i => simpleTeam (i + 1) (teamName (i + 1))

/-- Group-stage state with `k` active teams and `n` recorded group
matches. -/
def stState (k n : Nat) : AppState :=
  { teams := stTeams k, ledger := (List.range n).map fun i => gsEntry (i + 1),
    tournamentState := some "Group Stage", nextMatchId := n + 1 }

/-- 32 distinct existing team names. -/
def c2Names : List String := (List.range 32).map fun i => teamName (i + 1)

/-- 32-entry advancing list with a repeated name (only 31 distinct). -/
def c3Names : List String := "T1" :: ((List.range 31).map fun i => teamName (i + 1))

/-- Semi-final test team with `current_points = 40`. -/
def c4A : Team := { simpleTeam 1 "A" with current_points := 40 }

/-- Semi-final test team with `current_points = 30`. -/
def c4B : Team := { simpleTeam 2 "B" with current_points := 30 }

/-- Concrete Semi-finals state for the C4 witness. -/
def c4State : AppState :=
  { teams := [c4A, c4B], ledger := [], tournamentState := some "Semi-finals",
    nextMatchId := 1 }

/-- Empty state with an empty ledger (undo must fail here). -/
def c5State : AppState :=
  { teams := [], ledger := [], tournamentState := some "Group Stage",
    nextMatchId := 1 }

/-- State whose round is "Final" (draws must be rejected here). -/
def c6FinalState : AppState :=
  { teams := [], ledger := [], tournamentState := some "Final",
    nextMatchId := 1 }

/-- Group-stage draw test team with `base_points = 10`. -/
def c6A : Team := simpleTeam 1 "E"

/-- Group-stage draw test team with `base_points = 14`. -/
def c6B : Team := { simpleTeam 2 "F" with base_points := 14 }

/-- Concrete Group Stage state for the C6 witness. -/
def c6State : AppState :=
  { teams := [c6A, c6B], ledger := [], tournamentState := some "Group Stage",
    nextMatchId := 1 }

/-- State with no `TournamentState` row. -/
def c9State : AppState :=
  { teams := [], ledger := [], tournamentState := none, nextMatchId := 1 }

/-- Four-team roster used to replay the Third Place undo scenario. -/
def c1Roster : List RosterRow :=
  [{ country := "A", rank := 1, confederation := "X", group := "A" },
   { country := "B", rank := 2, confederation := "X", group := "A" },
   { country := "C", rank := 3, confederation := "X", group := "A" },
   { country := "D", rank := 4, confederation := "X", group := "A" }]

/-- Freshly reset four-team state. -/
noncomputable def c1s0 : AppState := init_teams c1Roster

/-- After the admin sets the round to Semi-finals (4 active teams, within
the Semi-finals capacity of 4, so the non-forced transition succeeds). -/
noncomputable def c1s1 : AppState := (set_current_round c1s0 "Semi-finals" false).2

/-- After recording the semi-final win of A over B. -/
noncomputable def c1s2 : AppState := (record_match c1s1 "A" "B" none none).2

/-- After recording the semi-final win of C over D. -/
noncomputable def c1s3 : AppState := (record_match c1s2 "C" "D" none none).2

/-- After the admin sets the round to Third Place (4 active teams, within
the Third Place capacity of 4). -/
noncomputable def c1s4 : AppState := (set_current_round c1s3 "Third Place" false).2

/-- After recording the Third Place win of B over D. -/
noncomputable def c1s5 : AppState := (record_match c1s4 "B" "D" none none).2

/-- After undoing the Third Place match. -/
noncomputable def c1s6 : AppState := (undo_last_match c1s5).2

/-! ### Helper lemmas -/

theorem mem_updTeam_of_eq {ts : List Team} {t : Team} (h : t ∈ ts) {i : Nat}
    (heq : t.id = i) (f : Team → Team) : f t ∈ updTeam ts i f := by
  have hm := List.mem_map_of_mem (fun u => if u.id = i then f u else u) h
  simpa [updTeam, heq] using hm

theorem mem_updTeam_of_ne {ts : List Team} {t : Team} (h : t ∈ ts) {i : Nat}
    (hne : t.id ≠ i) (f : Team → Team) : t ∈ updTeam ts i f := by
  have hm := List.mem_map_of_mem (fun u => if u.id = i then f u else u) h
  simpa [updTeam, hne] using hm

theorem applyOpE_shape (s : AppState) (op : Op) :
    (applyOpE s op).2 = s ∨ (applyOpE s op).1 = Except.ok () := by
  cases op with
  | recordWin wc lc ws ls =>
    show (record_match s wc lc ws ls).2 = s ∨
      (record_match s wc lc ws ls).1 = Except.ok ()
    unfold record_match
    dsimp only
    repeat' split
    all_goals simp
  | recordDraw c1 c2 s1 s2 =>
    show (record_draw s c1 c2 s1 s2).2 = s ∨
      (record_draw s c1 c2 s1 s2).1 = Except.ok ()
    unfold record_draw
    dsimp only
    repeat' split
    all_goals simp
  | undoLast =>
    show (undo_last_match s).2 = s ∨ (undo_last_match s).1 = Except.ok ()
    unfold undo_last_match
    dsimp only
    repeat' split
    all_goals simp
  | advanceKnockout names =>
    show (advance_to_knockout s names).2 = s ∨
      (advance_to_knockout s names).1 = Except.ok ()
    unfold advance_to_knockout
    dsimp only
    repeat' split
    all_goals simp
  | setRound name =>
    show (set_current_round s name false).2 = s ∨
      (set_current_round s name false).1 = Except.ok ()
    unfold set_current_round
    repeat' split
    all_goals simp

theorem countP_names (ts : List Team) (names : List String)
    (hnd : names.Nodup) (hcn : (ts.map Team.country).Nodup)
    (hex : ∀ c ∈ names, ∃ t ∈ ts, t.country = c) :
    (ts.countP fun t => decide (t.country ∈ names)) = names.length := by
  have hsub : List.Sublist (ts.filter (fun t => decide (t.country ∈ names))) ts :=
    List.filter_sublist ts
  have hmnd : ((ts.filter (fun t => decide (t.country ∈ names))).map
      Team.country).Nodup :=
    List.Nodup.sublist (hsub.map Team.country) hcn
  have hfin : ((ts.filter (fun t => decide (t.country ∈ names))).map
      Team.country).toFinset = names.toFinset := by
    ext c
    simp only [List.mem_toFinset, List.mem_map]
    constructor
    · rintro ⟨t, htl, rfl⟩
      have hm := List.mem_filter.mp htl
      simpa using hm.2
    · intro hc
      obtain ⟨t, ht, hceq⟩ := hex c hc
      exact ⟨t, List.mem_filter.mpr ⟨ht, by simp [hceq, hc]⟩, hceq⟩
  have e2 := List.toFinset_card_of_nodup hmnd
  have e3 := List.toFinset_card_of_nodup hnd
  rw [hfin, e3] at e2
  rw [List.countP_eq_length_filter]
  rw [List.length_map] at e2
  omega

theorem active_of_named (ts : List Team) (names : List String)
    (hcn : (ts.map Team.country).Nodup)
    (hex : ∀ c ∈ names, ∃ t ∈ ts, t.country = c ∧ t.eliminated = false)
    {t : Team} (ht : t ∈ ts) (hm : t.country ∈ names) : t.eliminated = false := by
  obtain ⟨u, hu, hc, he⟩ := hex t.country hm
  have he2 : u = t := List.inj_on_of_nodup_map hcn hu ht hc
  rw [← he2]
  exact he

theorem idsOf_map (ts : List Team) (g : Team → Team)
    (hg : ∀ t, (g t).id = t.id) : idsOf (ts.map g) = idsOf ts := by
  simp only [idsOf, List.map_map]
  apply List.map_congr_left
  intro t _
  simp [hg]

theorem idsOf_updTeam (ts : List Team) (i : Nat) (f : Team → Team)
    (hf : ∀ t, (f t).id = t.id) : idsOf (updTeam ts i f) = idsOf ts := by
  apply idsOf_map
  intro t
  by_cases h : t.id = i <;> simp [h, hf]

theorem sumT_map_const (ts : List Team) (g : Team → Team)
    (hg : ∀ t, (g t).total_score = t.total_score) : sumT (ts.map g) = sumT ts := by
  simp only [sumT, List.map_map]
  congr 1
  apply List.map_congr_left
  intro t _
  simp [hg]

theorem sumT_updTeam_const (ts : List Team) (i : Nat) (f : Team → Team)
    (hf : ∀ t, (f t).total_score = t.total_score) :
    sumT (updTeam ts i f) = sumT ts := by
  apply sumT_map_const
  intro t
  by_cases h : t.id = i <;> simp [h, hf]

theorem updTeam_not_mem (ts : List Team) (i : Nat) (f : Team → Team)
    (h : i ∉ idsOf ts) : updTeam ts i f = ts := by
  induction ts with
  | nil => rfl
  | cons u us ih =>
    simp only [idsOf, List.map_cons, List.mem_cons, not_or] at h
    simp only [updTeam, List.map_cons]
    rw [if_neg (fun hc => h.1 hc.symm)]
    have := ih (by simpa [idsOf] using h.2)
    rw [show (us.map fun t => if t.id = i then f t else t) = updTeam us i f from rfl,
        this]

theorem teamById_isSome_iff (ts : List Team) (i : Nat) :
    (teamById ts i).isSome ↔ i ∈ idsOf ts := by
  simp only [teamById, List.find?_isSome, idsOf, List.mem_map,
    decide_eq_true_eq]

theorem teamById_mem_self (ts : List Team) (hnd : (idsOf ts).Nodup) {t : Team}
    (ht : t ∈ ts) : teamById ts t.id = some t := by
  induction ts with
  | nil => cases ht
  | cons u us ih =>
    rw [idsOf, List.map_cons, List.nodup_cons] at hnd
    rcases List.mem_cons.mp ht with rfl | ht2
    · simp [teamById]
    · have hne : ¬ u.id = t.id := by
        intro he
        exact hnd.1 (he ▸ List.mem_map_of_mem Team.id ht2)
      rw [teamById, List.find?_cons, decide_eq_false hne]
      exact ih hnd.2 ht2

theorem sumT_cons (t : Team) (ts : List Team) :
    sumT (t :: ts) = t.total_score + sumT ts := by
  simp [sumT]

theorem sumT_updTeam (ts : List Team) (i : Nat) (f : Team → Team) (t : Team)
    (hnd : (idsOf ts).Nodup) (h : teamById ts i = some t) :
    sumT (updTeam ts i f) = sumT ts + ((f t).total_score - t.total_score) := by
  induction ts with
  | nil => simp [teamById] at h
  | cons u us ih =>
    rw [idsOf, List.map_cons, List.nodup_cons] at hnd
    by_cases hu : u.id = i
    · have ht : u = t := by
        rw [teamById, List.find?_cons, decide_eq_true hu] at h
        exact Option.some.inj h
      subst ht
      have hnotin : i ∉ idsOf us := hu ▸ hnd.1
      rw [updTeam, List.map_cons, if_pos hu,
          show (us.map fun x => if x.id = i then f x else x) = updTeam us i f
            from rfl,
          updTeam_not_mem us i f hnotin, sumT_cons, sumT_cons]
      ring
    · rw [teamById, List.find?_cons, decide_eq_false hu] at h
      rw [updTeam, List.map_cons, if_neg hu,
          show (us.map fun x => if x.id = i then f x else x) = updTeam us i f
            from rfl,
          sumT_cons, sumT_cons, ih hnd.2 h]
      ring

theorem entOk_ids (ts1 ts2 : List Team) (m : Match)
    (hid : idsOf ts1 = idsOf ts2) (h : EntOk ts1 m) : EntOk ts2 m := by
  unfold EntOk at h ⊢
  split at h
  · rename_i hdraw
    rw [if_pos hdraw]
    exact ⟨(teamById_isSome_iff ts2 _).mpr
        (hid ▸ (teamById_isSome_iff ts1 _).mp h.1),
      (teamById_isSome_iff ts2 _).mpr
        (hid ▸ (teamById_isSome_iff ts1 _).mp h.2)⟩
  · rename_i hdraw
    rw [if_neg hdraw]
    obtain ⟨w, hw, hs⟩ := h
    exact ⟨w, hw, (teamById_isSome_iff ts2 w).mpr
      (hid ▸ (teamById_isSome_iff ts1 w).mp hs)⟩

theorem ledger_split (l : List Match) (m : Match) (h : l.getLast? = some m) :
    l = l.dropLast ++ [m] := by
  induction l with
  | nil => cases h
  | cons a l ih =>
    cases l with
    | nil =>
      simp only [List.getLast?_singleton, Option.some.injEq] at h
      simp [h]
    | cons b l2 =>
      rw [List.getLast?_cons_cons] at h
      have := ih h
      calc a :: b :: l2 = a :: ((b :: l2).dropLast ++ [m]) := by rw [← this]
        _ = (a :: b :: l2).dropLast ++ [m] := by simp

theorem invAll_extend (s : AppState) (ts2 : List Team) (m : Match) (n : Nat)
    (h : InvAll s) (hid : idsOf ts2 = idsOf s.teams)
    (hsum : sumT ts2 = sumT s.teams + entryVal m)
    (hm : EntOk ts2 m) :
    InvAll { s with teams := ts2, ledger := s.ledger ++ [m],
                    nextMatchId := n } := by
  obtain ⟨hnd, hent, hs⟩ := h
  refine ⟨hid ▸ hnd, ?_, ?_⟩
  · intro m2 hm2
    rcases List.mem_append.mp hm2 with h2 | h2
    · exact entOk_ids s.teams ts2 m2 hid.symm (hent m2 h2)
    · rw [List.mem_singleton] at h2
      subst h2
      exact hm
  · show sumT ts2 = ledgerTotal _
    unfold ledgerTotal
    simp only [List.map_append, List.sum_append, List.map_cons, List.map_nil,
      List.sum_cons, List.sum_nil]
    unfold sumTotal ledgerTotal at hs
    rw [hsum, hs]
    ring

theorem inv_set_round (s : AppState) (name : String) (force : Bool)
    (h : InvAll s) : InvAll (set_current_round s name force).2 := by
  unfold set_current_round
  repeat' split
  all_goals exact h

theorem inv_advance (s : AppState) (names : List String) (h : InvAll s) :
    InvAll (advance_to_knockout s names).2 := by
  unfold advance_to_knockout
  dsimp only
  repeat' split
  any_goals exact h
  obtain ⟨hnd, hent, hsum⟩ := h
  have hgid : ∀ t : Team, ((if t.country ∉ names then
      ({ t with eliminated := true, elimination_round := "Group Stage" } : Team)
      else { t with current_points := max 1.0 t.total_score }) : Team).id
      = t.id := by
    intro t
    by_cases ht : t.country ∈ names <;> simp [ht]
  have hgtot : ∀ t : Team, ((if t.country ∉ names then
      ({ t with eliminated := true, elimination_round := "Group Stage" } : Team)
      else { t with current_points := max 1.0 t.total_score }) : Team).total_score
      = t.total_score := by
    intro t
    by_cases ht : t.country ∈ names <;> simp [ht]
  have hid := idsOf_map s.teams _ hgid
  have htot := sumT_map_const s.teams _ hgtot
  exact ⟨hid ▸ hnd, fun m hm => entOk_ids _ _ _ hid.symm (hent m hm),
    htot.trans hsum⟩

theorem inv_record_draw (s : AppState) (c1 c2 : String) (g1 g2 : Option Int)
    (h : InvAll s) : InvAll (record_draw s c1 c2 g1 g2).2 := by
  unfold record_draw
  dsimp only
  split
  · exact h
  cases h1 : findTeam s.teams c1 with
  | none => exact h
  | some t1 =>
    cases h2 : findTeam s.teams c2 with
    | none => exact h
    | some t2 =>
      dsimp only
      by_cases h1e : t1.eliminated = true
      · rw [h1e]; exact h
      · rw [Bool.not_eq_true] at h1e
        rw [h1e]
        by_cases h2e : t2.eliminated = true
        · rw [h2e]; exact h
        · rw [Bool.not_eq_true] at h2e
          rw [h2e]
          obtain ⟨hnd, hent, hsum⟩ := h
          have hm1 : t1 ∈ s.teams := List.mem_of_find?_eq_some h1
          have hm2 : t2 ∈ s.teams := List.mem_of_find?_eq_some h2
          have hb1 : teamById s.teams t1.id = some t1 :=
            teamById_mem_self s.teams hnd hm1
          have hid1 : idsOf (updTeam s.teams t1.id (fun t =>
              { t with total_score := t.total_score + (t2.base_points : ℚ) / 2,
                       draws := t.draws + 1 })) = idsOf s.teams :=
            idsOf_updTeam _ _ _ (fun t => rfl)
          have hs1 := sumT_updTeam s.teams t1.id (fun t =>
              { t with total_score := t.total_score + (t2.base_points : ℚ) / 2,
                       draws := t.draws + 1 }) t1 hnd hb1
          have hsome2 : (teamById (updTeam s.teams t1.id (fun t =>
              { t with total_score := t.total_score + (t2.base_points : ℚ) / 2,
                       draws := t.draws + 1 })) t2.id).isSome := by
            rw [teamById_isSome_iff, hid1]
            exact List.mem_map_of_mem Team.id hm2
          obtain ⟨u, hu⟩ := Option.isSome_iff_exists.mp hsome2
          have hs2 := sumT_updTeam _ t2.id (fun t =>
              { t with total_score := t.total_score + (t1.base_points : ℚ) / 2,
                       draws := t.draws + 1 }) u (hid1 ▸ hnd) hu
          have hid2 : idsOf (updTeam (updTeam s.teams t1.id (fun t =>
              { t with total_score := t.total_score + (t2.base_points : ℚ) / 2,
                       draws := t.draws + 1 })) t2.id (fun t =>
              { t with total_score := t.total_score + (t1.base_points : ℚ) / 2,
                       draws := t.draws + 1 })) = idsOf s.teams := by
            rw [idsOf_updTeam _ _ (fun t =>
              { t with total_score := t.total_score + (t1.base_points : ℚ) / 2,
                       draws := t.draws + 1 }) (fun t => rfl), hid1]
          apply invAll_extend s _ _ _ ⟨hnd, hent, hsum⟩ hid2
          · rw [hs2, hs1]
            show _ = _ + entryVal _
            unfold entryVal
            simp
            ring
          · show EntOk _ _
            unfold EntOk
            simp only [reduceIte]
            constructor
            · rw [teamById_isSome_iff, hid2]
              exact List.mem_map_of_mem Team.id hm1
            · rw [teamById_isSome_iff, hid2]
              exact List.mem_map_of_mem Team.id hm2

theorem chain_ids_sum (ts : List Team) (w l : Nat) (tw : Team) (pe : ℚ)
    (g3 g4 : Team → Team)
    (hg3i : ∀ t, (g3 t).id = t.id)
    (hg3t : ∀ t, (g3 t).total_score = t.total_score)
    (hg4i : ∀ t, (g4 t).id = t.id)
    (hg4t : ∀ t, (g4 t).total_score = t.total_score)
    (hnd : (idsOf ts).Nodup) (hbw : teamById ts w = some tw) :
    idsOf (updTeam (updTeam (updTeam (updTeam ts w
        (fun t => { t with total_score := t.total_score + pe,
                           wins := t.wins + 1 }))
        l (fun t => { t with losses := t.losses + 1 })) w g3) l g4) =
      idsOf ts ∧
    sumT (updTeam (updTeam (updTeam (updTeam ts w
        (fun t => { t with total_score := t.total_score + pe,
                           wins := t.wins + 1 }))
        l (fun t => { t with losses := t.losses + 1 })) w g3) l g4) =
      sumT ts + pe := by
  constructor
  · rw [idsOf_updTeam _ l g4 hg4i, idsOf_updTeam _ w g3 hg3i,
        idsOf_updTeam _ l (fun t => { t with losses := t.losses + 1 })
          (fun t => rfl),
        idsOf_updTeam _ w (fun t =>
          { t with total_score := t.total_score + pe, wins := t.wins + 1 })
          (fun t => rfl)]
  · rw [sumT_updTeam_const _ l g4 hg4t, sumT_updTeam_const _ w g3 hg3t,
        sumT_updTeam_const _ l (fun t => { t with losses := t.losses + 1 })
          (fun t => rfl),
        sumT_updTeam ts w (fun t =>
          { t with total_score := t.total_score + pe, wins := t.wins + 1 })
          tw hnd hbw]
    have hp : ((fun t => ({ t with total_score := t.total_score + pe,
                                   wins := t.wins + 1 } : Team)) tw).total_score
        = tw.total_score + pe := rfl
    rw [hp]
    ring

theorem inv_record_match (s : AppState) (wc lc : String) (ws ls : Option Int)
    (h : InvAll s) : InvAll (record_match s wc lc ws ls).2 := by
  unfold record_match
  dsimp only
  cases h1 : findTeam s.teams wc with
  | none => exact h
  | some tw =>
    cases h2 : findTeam s.teams lc with
    | none => exact h
    | some tl =>
      dsimp only
      by_cases hwe : tw.eliminated = true
      · rw [hwe]; exact h
      · rw [Bool.not_eq_true] at hwe
        rw [hwe]
        by_cases hle : tl.eliminated = true
        · rw [hle]; exact h
        · rw [Bool.not_eq_true] at hle
          rw [hle]
          obtain ⟨hnd, hent, hsum⟩ := h
          have hmw : tw ∈ s.teams := List.mem_of_find?_eq_some h1
          have hbw : teamById s.teams tw.id = some tw :=
            teamById_mem_self s.teams hnd hmw
          by_cases hgs : get_current_round s = "Group Stage"
          · rw [hgs]
            simp only [reduceIte]
            refine invAll_extend s _ _ _ ⟨hnd, hent, hsum⟩ ?_ ?_ ?_
            · rw [idsOf_updTeam _ tl.id
                  (fun t => { t with losses := t.losses + 1 }) (fun t => rfl),
                idsOf_updTeam _ tw.id
                  (fun t => { t with total_score := t.total_score + (tl.base_points : ℚ),
                                     wins := t.wins + 1 }) (fun t => rfl)]
            · rw [sumT_updTeam_const _ tl.id
                  (fun t => { t with losses := t.losses + 1 }) (fun t => rfl),
                sumT_updTeam s.teams tw.id _ tw hnd hbw]
              unfold entryVal
              simp only [String.reduceEq, reduceIte, Option.getD_some]
              ring
            · unfold EntOk
              simp only [String.reduceEq, reduceIte]
              refine ⟨tw.id, rfl, ?_⟩
              rw [teamById_isSome_iff,
                idsOf_updTeam _ tl.id
                  (fun t => { t with losses := t.losses + 1 }) (fun t => rfl),
                idsOf_updTeam _ tw.id
                  (fun t => { t with total_score := t.total_score + (tl.base_points : ℚ),
                                     wins := t.wins + 1 }) (fun t => rfl)]
              exact List.mem_map_of_mem Team.id hmw
          · rw [if_neg hgs]
            have hfin : ∀ (g3 g4 : Team → Team)
                (hg3i : ∀ t, (g3 t).id = t.id)
                (hg3t : ∀ t, (g3 t).total_score = t.total_score)
                (hg4i : ∀ t, (g4 t).id = t.id)
                (hg4t : ∀ t, (g4 t).total_score = t.total_score)
                (n : Nat) (m : Match)
                (hmty : m.match_type = "win")
                (hmpe : m.points_earned = some tl.current_points)
                (hmw2 : m.winner_id = some tw.id),
                InvAll { s with
                  teams := updTeam (updTeam (updTeam (updTeam s.teams tw.id
                      (fun t => { t with total_score := t.total_score + tl.current_points,
                                         wins := t.wins + 1 }))
                      tl.id (fun t => { t with losses := t.losses + 1 })) tw.id g3) tl.id g4,
                  ledger := s.ledger ++ [m], nextMatchId := n } := by
              intro g3 g4 hg3i hg3t hg4i hg4t n m hmty hmpe hmw2
              have hcs := chain_ids_sum s.teams tw.id tl.id tw tl.current_points
                g3 g4 hg3i hg3t hg4i hg4t hnd hbw
              refine invAll_extend s _ _ _ ⟨hnd, hent, hsum⟩ hcs.1 ?_ ?_
              · rw [hcs.2]
                unfold entryVal
                rw [hmty, hmpe]
                simp only [String.reduceEq, reduceIte, Option.getD_some]
              · unfold EntOk
                rw [hmty]
                simp only [String.reduceEq, reduceIte]
                refine ⟨tw.id, hmw2, ?_⟩
                rw [teamById_isSome_iff, hcs.1]
                exact List.mem_map_of_mem Team.id hmw
            by_cases hsf : get_current_round s = "Semi-finals"
            · rw [hsf]
              simp only [reduceIte]
              apply hfin <;> first | (intro t; rfl) | rfl
            · rw [if_neg hsf]
              by_cases htp : get_current_round s = "Third Place"
              · rw [htp]
                simp only [reduceIte]
                apply hfin <;> first | (intro t; rfl) | rfl
              · rw [if_neg htp]
                by_cases hfi : get_current_round s = "Final"
                · rw [hfi]
                  simp only [reduceIte]
                  apply hfin <;> first | (intro t; rfl) | rfl
                · rw [if_neg hfi]
                  simp only [Bool.false_eq_true, reduceIte, if_neg hgs]
                  apply hfin <;> first | (intro t; rfl) | rfl

theorem inv_undo (s : AppState) (h : InvAll s) :
    InvAll (undo_last_match s).2 := by
  unfold undo_last_match
  cases hlast : s.ledger.getLast? with
  | none => exact h
  | some m =>
    dsimp only
    obtain ⟨hnd, hent, hsum⟩ := h
    have hsplit := ledger_split s.ledger m hlast
    have hmem : m ∈ s.ledger := by
      rw [hsplit]
      exact List.mem_append_right _ (List.mem_singleton_self m)
    have hentm := hent m hmem
    have hlt : ledgerTotal s = (s.ledger.dropLast.map entryVal).sum + entryVal m := by
      have hc := congrArg (fun l => ((l.map entryVal).sum : ℚ)) hsplit
      simpa [ledgerTotal, List.map_append] using hc
    by_cases hdraw : m.match_type = "draw"
    · rw [hdraw]
      simp only [String.reduceEq, reduceIte]
      unfold EntOk at hentm
      rw [hdraw] at hentm
      simp only [String.reduceEq, reduceIte] at hentm
      obtain ⟨u1, hu1⟩ := Option.isSome_iff_exists.mp hentm.1
      obtain ⟨u2, hu2⟩ := Option.isSome_iff_exists.mp hentm.2
      rw [hu1, hu2]
      simp only [Option.getD_some]
      have hu1id : u1.id = m.team1_id := by simpa using List.find?_some hu1
      have hb1 : teamById s.teams u1.id = some u1 := by rw [hu1id]; exact hu1
      have hu2id : u2.id = m.team2_id := by simpa using List.find?_some hu2
      have hb2 : teamById s.teams u2.id = some u2 := by rw [hu2id]; exact hu2
      have hids : idsOf (updTeam (updTeam s.teams u1.id (fun t =>
          { t with total_score := t.total_score - m.team1_earned.getD 0,
                   draws := t.draws - 1 })) u2.id (fun t =>
          { t with total_score := t.total_score - m.team2_earned.getD 0,
                   draws := t.draws - 1 })) = idsOf s.teams := by
        rw [idsOf_updTeam _ u2.id (fun t =>
            { t with total_score := t.total_score - m.team2_earned.getD 0,
                     draws := t.draws - 1 }) (fun t => rfl),
          idsOf_updTeam _ u1.id (fun t =>
            { t with total_score := t.total_score - m.team1_earned.getD 0,
                     draws := t.draws - 1 }) (fun t => rfl)]
      refine ⟨hids ▸ hnd, ?_, ?_⟩
      · intro m2 hm2
        exact entOk_ids _ _ _ hids.symm
          (hent m2 ((List.dropLast_sublist s.ledger).subset hm2))
      · have hs1 := sumT_updTeam s.teams u1.id (fun t =>
            { t with total_score := t.total_score - m.team1_earned.getD 0,
                     draws := t.draws - 1 }) u1 hnd hb1
        have hsome2 : (teamById (updTeam s.teams u1.id (fun t =>
            { t with total_score := t.total_score - m.team1_earned.getD 0,
                     draws := t.draws - 1 })) u2.id).isSome := by
          rw [teamById_isSome_iff,
            idsOf_updTeam _ u1.id (fun t =>
              { t with total_score := t.total_score - m.team1_earned.getD 0,
                       draws := t.draws - 1 }) (fun t => rfl),
            ← teamById_isSome_iff]
          rw [hb2]
          rfl
        obtain ⟨v2, hv2⟩ := Option.isSome_iff_exists.mp hsome2
        have hs2 := sumT_updTeam _ u2.id (fun t =>
            { t with total_score := t.total_score - m.team2_earned.getD 0,
                     draws := t.draws - 1 }) v2 (by
          rw [idsOf_updTeam _ u1.id (fun t =>
            { t with total_score := t.total_score - m.team1_earned.getD 0,
                     draws := t.draws - 1 }) (fun t => rfl)]
          exact hnd) hv2
        show sumT _ = (s.ledger.dropLast.map entryVal).sum
        rw [hs2, hs1]
        have hv : entryVal m = m.team1_earned.getD 0 + m.team2_earned.getD 0 := by
          unfold entryVal
          rw [hdraw]
          simp only [String.reduceEq, reduceIte]
        have hst : sumTotal s = sumT s.teams := rfl
        rw [hst] at hsum
        dsimp only
        rw [hsum, hlt, hv]
        ring
    · rw [if_neg hdraw]
      unfold EntOk at hentm
      rw [if_neg hdraw] at hentm
      obtain ⟨w, hw, hws⟩ := hentm
      obtain ⟨tw, htw⟩ := Option.isSome_iff_exists.mp hws
      rw [hw]
      simp only [Option.getD_some]
      simp only [htw, Option.getD_some]
      have htwid : tw.id = w := by simpa using List.find?_some htw
      have hbw : teamById s.teams tw.id = some tw := by rw [htwid]; exact htw
      have hgen : ∀ (ts3 : List Team),
          idsOf ts3 = idsOf s.teams →
          sumT ts3 = sumT s.teams - m.points_earned.getD 0 →
          InvAll { s with teams := ts3, ledger := s.ledger.dropLast } := by
        intro ts3 hids hsums
        refine ⟨hids ▸ hnd, ?_, ?_⟩
        · intro m2 hm2
          exact entOk_ids _ _ _ hids.symm
            (hent m2 ((List.dropLast_sublist s.ledger).subset hm2))
        · have hv : entryVal m = m.points_earned.getD 0 := by
            unfold entryVal
            rw [if_neg hdraw]
          have hst : sumTotal s = sumT s.teams := rfl
          rw [hst] at hsum
          show sumT ts3 = (s.ledger.dropLast.map entryVal).sum
          rw [hsums]
          have : (s.ledger.dropLast.map entryVal).sum =
              ledgerTotal s - entryVal m := by
            rw [hlt]
            ring
          rw [this, ← hsum, hv]
      have hts2 : ∀ (L : Nat),
          idsOf (updTeam (updTeam s.teams tw.id (fun t =>
            { t with total_score := t.total_score - m.points_earned.getD 0,
                     wins := t.wins - 1 })) L (fun t =>
            { t with losses := t.losses - 1 })) = idsOf s.teams ∧
          sumT (updTeam (updTeam s.teams tw.id (fun t =>
            { t with total_score := t.total_score - m.points_earned.getD 0,
                     wins := t.wins - 1 })) L (fun t =>
            { t with losses := t.losses - 1 })) =
            sumT s.teams - m.points_earned.getD 0 := by
        intro L
        constructor
        · rw [idsOf_updTeam _ L (fun t => { t with losses := t.losses - 1 })
              (fun t => rfl),
            idsOf_updTeam _ tw.id (fun t =>
              { t with total_score := t.total_score - m.points_earned.getD 0,
                       wins := t.wins - 1 }) (fun t => rfl)]
        · rw [sumT_updTeam_const _ L (fun t => { t with losses := t.losses - 1 })
              (fun t => rfl),
            sumT_updTeam s.teams tw.id (fun t =>
              { t with total_score := t.total_score - m.points_earned.getD 0,
                       wins := t.wins - 1 }) tw hnd hbw]
          dsimp only
          ring
      by_cases hrgs : m.round_name = "Group Stage"
      · rw [hrgs]
        simp only [String.reduceEq, reduceIte]
        exact hgen _ (hts2 _).1 (hts2 _).2
      · rw [if_neg hrgs]
        by_cases hrsf : m.round_name = "Semi-finals"
        · rw [hrsf]
          simp only [String.reduceEq, reduceIte]
          cases hprev : prevKnockoutWin s.ledger tw.id m.id with
          | none =>
            refine hgen _ ?_ ?_
            · rw [idsOf_updTeam _ _ (fun t =>
                  { t with current_points := m.points_earned.getD 0,
                           elimination_round := "" }) (fun t => rfl),
                idsOf_updTeam _ _ (fun t =>
                  { t with current_points := t.total_score }) (fun t => rfl)]
              exact (hts2 _).1
            · rw [sumT_updTeam_const _ _ (fun t =>
                  { t with current_points := m.points_earned.getD 0,
                           elimination_round := "" }) (fun t => rfl),
                sumT_updTeam_const _ _ (fun t =>
                  { t with current_points := t.total_score }) (fun t => rfl)]
              exact (hts2 _).2
          | some pm =>
            refine hgen _ ?_ ?_
            · rw [idsOf_updTeam _ _ (fun t =>
                  { t with current_points := m.points_earned.getD 0,
                           elimination_round := "" }) (fun t => rfl),
                idsOf_updTeam _ _ (fun t =>
                  { t with current_points := pm.points_earned.getD 0 })
                  (fun t => rfl)]
              exact (hts2 _).1
            · rw [sumT_updTeam_const _ _ (fun t =>
                  { t with current_points := m.points_earned.getD 0,
                           elimination_round := "" }) (fun t => rfl),
                sumT_updTeam_const _ _ (fun t =>
                  { t with current_points := pm.points_earned.getD 0 })
                  (fun t => rfl)]
              exact (hts2 _).2
        · rw [if_neg hrsf]
          by_cases hrtp : m.round_name = "Third Place"
          · rw [hrtp]
            simp only [String.reduceEq, reduceIte]
            cases hsw : semiMatchOf s.ledger tw.id with
            | none =>
              cases hsl : semiMatchOf s.ledger (if some m.team1_id = some w then
                  (teamById s.teams m.team2_id).getD defaultTeam
                  else (teamById s.teams m.team1_id).getD defaultTeam).id with
              | none =>
                refine hgen _ ?_ ?_
                · rw [idsOf_updTeam _ _ (fun t =>
                      { t with eliminated := false, elimination_round :=
                          "Semi-finals (Available for 3rd Place)" })
                      (fun t => rfl),
                    idsOf_updTeam _ _ (fun t =>
                      { t with elimination_round :=
                          "Semi-finals (Available for 3rd Place)" })
                      (fun t => rfl)]
                  exact (hts2 _).1
                · rw [sumT_updTeam_const _ _ (fun t =>
                      { t with eliminated := false, elimination_round :=
                          "Semi-finals (Available for 3rd Place)" })
                      (fun t => rfl),
                    sumT_updTeam_const _ _ (fun t =>
                      { t with elimination_round :=
                          "Semi-finals (Available for 3rd Place)" })
                      (fun t => rfl)]
                  exact (hts2 _).2
              | some sl =>
                refine hgen _ ?_ ?_
                · rw [idsOf_updTeam _ _ (fun t =>
                      { t with eliminated := false, elimination_round :=
                          "Semi-finals (Available for 3rd Place)" })
                      (fun t => rfl),
                    idsOf_updTeam _ _ (fun t =>
                      { t with elimination_round :=
                          "Semi-finals (Available for 3rd Place)" })
                      (fun t => rfl),
                    idsOf_updTeam _ _ (fun t =>
                      { t with current_points :=
                          if sl.winner_id ≠ some (if some m.team1_id = some w then
                              (teamById s.teams m.team2_id).getD defaultTeam
                              else (teamById s.teams m.team1_id).getD defaultTeam).id
                          then sl.points_earned.getD 0 * 0.75
                          else sl.points_earned.getD 0 }) (fun t => rfl)]
                  exact (hts2 _).1
                · rw [sumT_updTeam_const _ _ (fun t =>
                      { t with eliminated := false, elimination_round :=
                          "Semi-finals (Available for 3rd Place)" })
                      (fun t => rfl),
                    sumT_updTeam_const _ _ (fun t =>
                      { t with elimination_round :=
                          "Semi-finals (Available for 3rd Place)" })
                      (fun t => rfl),
                    sumT_updTeam_const _ _ (fun t =>
                      { t with current_points :=
                          if sl.winner_id ≠ some (if some m.team1_id = some w then
                              (teamById s.teams m.team2_id).getD defaultTeam
                              else (teamById s.teams m.team1_id).getD defaultTeam).id
                          then sl.points_earned.getD 0 * 0.75
                          else sl.points_earned.getD 0 }) (fun t => rfl)]
                  exact (hts2 _).2
            | some sw =>
              cases hsl : semiMatchOf s.ledger (if some m.team1_id = some w then
                  (teamById s.teams m.team2_id).getD defaultTeam
                  else (teamById s.teams m.team1_id).getD defaultTeam).id with
              | none =>
                refine hgen _ ?_ ?_
                · rw [idsOf_updTeam _ _ (fun t =>
                      { t with eliminated := false, elimination_round :=
                          "Semi-finals (Available for 3rd Place)" })
                      (fun t => rfl),
                    idsOf_updTeam _ _ (fun t =>
                      { t with elimination_round :=
                          "Semi-finals (Available for 3rd Place)" })
                      (fun t => rfl),
                    idsOf_updTeam _ _ (fun t =>
                      { t with current_points :=
                          if sw.winner_id ≠ some tw.id
                          then sw.points_earned.getD 0 * 0.75
                          else sw.points_earned.getD 0 }) (fun t => rfl)]
                  exact (hts2 _).1
                · rw [sumT_updTeam_const _ _ (fun t =>
                      { t with eliminated := false, elimination_round :=
                          "Semi-finals (Available for 3rd Place)" })
                      (fun t => rfl),
                    sumT_updTeam_const _ _ (fun t =>
                      { t with elimination_round :=
                          "Semi-finals (Available for 3rd Place)" })
                      (fun t => rfl),
                    sumT_updTeam_const _ _ (fun t =>
                      { t with current_points :=
                          if sw.winner_id ≠ some tw.id
                          then sw.points_earned.getD 0 * 0.75
                          else sw.points_earned.getD 0 }) (fun t => rfl)]
                  exact (hts2 _).2
              | some sl =>
                refine hgen _ ?_ ?_
                · rw [idsOf_updTeam _ _ (fun t =>
                      { t with eliminated := false, elimination_round :=
                          "Semi-finals (Available for 3rd Place)" })
                      (fun t => rfl),
                    idsOf_updTeam _ _ (fun t =>
                      { t with elimination_round :=
                          "Semi-finals (Available for 3rd Place)" })
                      (fun t => rfl),
                    idsOf_updTeam _ _ (fun t =>
                      { t with current_points :=
                          if sl.winner_id ≠ some (if some m.team1_id = some w then
                              (teamById s.teams m.team2_id).getD defaultTeam
                              else (teamById s.teams m.team1_id).getD defaultTeam).id
                          then sl.points_earned.getD 0 * 0.75
                          else sl.points_earned.getD 0 }) (fun t => rfl),
                    idsOf_updTeam _ _ (fun t =>
                      { t with current_points :=
                          if sw.winner_id ≠ some tw.id
                          then sw.points_earned.getD 0 * 0.75
                          else sw.points_earned.getD 0 }) (fun t => rfl)]
                  exact (hts2 _).1
                · rw [sumT_updTeam_const _ _ (fun t =>
                      { t with eliminated := false, elimination_round :=
                          "Semi-finals (Available for 3rd Place)" })
                      (fun t => rfl),
                    sumT_updTeam_const _ _ (fun t =>
                      { t with elimination_round :=
                          "Semi-finals (Available for 3rd Place)" })
                      (fun t => rfl),
                    sumT_updTeam_const _ _ (fun t =>
                      { t with current_points :=
                          if sl.winner_id ≠ some (if some m.team1_id = some w then
                              (teamById s.teams m.team2_id).getD defaultTeam
                              else (teamById s.teams m.team1_id).getD defaultTeam).id
                          then sl.points_earned.getD 0 * 0.75
                          else sl.points_earned.getD 0 }) (fun t => rfl),
                    sumT_updTeam_const _ _ (fun t =>
                      { t with current_points :=
                          if sw.winner_id ≠ some tw.id
                          then sw.points_earned.getD 0 * 0.75
                          else sw.points_earned.getD 0 }) (fun t => rfl)]
                  exact (hts2 _).2
          · rw [if_neg hrtp]
            by_cases hrfi : m.round_name = "Final"
            · rw [hrfi]
              simp only [String.reduceEq, reduceIte]
              cases hpw : prevKnockoutWin s.ledger tw.id m.id with
              | none =>
                cases hpl : prevKnockoutWin s.ledger
                    (if some m.team1_id = some w then
                      (teamById s.teams m.team2_id).getD defaultTeam
                      else (teamById s.teams m.team1_id).getD defaultTeam).id
                    m.id with
                | none =>
                  refine hgen _ ?_ ?_
                  · rw [idsOf_updTeam _ _ (fun t =>
                        { t with eliminated := false, elimination_round := "" })
                        (fun t => rfl),
                      idsOf_updTeam _ _ (fun t =>
                        { t with elimination_round := "" }) (fun t => rfl)]
                    exact (hts2 _).1
                  · rw [sumT_updTeam_const _ _ (fun t =>
                        { t with eliminated := false, elimination_round := "" })
                        (fun t => rfl),
                      sumT_updTeam_const _ _ (fun t =>
                        { t with elimination_round := "" }) (fun t => rfl)]
                    exact (hts2 _).2
                | some pl =>
                  refine hgen _ ?_ ?_
                  · rw [idsOf_updTeam _ _ (fun t =>
                        { t with eliminated := false, elimination_round := "" })
                        (fun t => rfl),
                      idsOf_updTeam _ _ (fun t =>
                        { t with elimination_round := "" }) (fun t => rfl),
                      idsOf_updTeam _ _ (fun t =>
                        { t with current_points := pl.points_earned.getD 0 })
                        (fun t => rfl)]
                    exact (hts2 _).1
                  · rw [sumT_updTeam_const _ _ (fun t =>
                        { t with eliminated := false, elimination_round := "" })
                        (fun t => rfl),
                      sumT_updTeam_const _ _ (fun t =>
                        { t with elimination_round := "" }) (fun t => rfl),
                      sumT_updTeam_const _ _ (fun t =>
                        { t with current_points := pl.points_earned.getD 0 })
                        (fun t => rfl)]
                    exact (hts2 _).2
              | some pw =>
                cases hpl : prevKnockoutWin s.ledger
                    (if some m.team1_id = some w then
                      (teamById s.teams m.team2_id).getD defaultTeam
                      else (teamById s.teams m.team1_id).getD defaultTeam).id
                    m.id with
                | none =>
                  refine hgen _ ?_ ?_
                  · rw [idsOf_updTeam _ _ (fun t =>
                        { t with eliminated := false, elimination_round := "" })
                        (fun t => rfl),
                      idsOf_updTeam _ _ (fun t =>
                        { t with elimination_round := "" }) (fun t => rfl),
                      idsOf_updTeam _ _ (fun t =>
                        { t with current_points := pw.points_earned.getD 0 })
                        (fun t => rfl)]
                    exact (hts2 _).1
                  · rw [sumT_updTeam_const _ _ (fun t =>
                        { t with eliminated := false, elimination_round := "" })
                        (fun t => rfl),
                      sumT_updTeam_const _ _ (fun t =>
                        { t with elimination_round := "" }) (fun t => rfl),
                      sumT_updTeam_const _ _ (fun t =>
                        { t with current_points := pw.points_earned.getD 0 })
                        (fun t => rfl)]
                    exact (hts2 _).2
                | some pl =>
                  refine hgen _ ?_ ?_
                  · rw [idsOf_updTeam _ _ (fun t =>
                        { t with eliminated := false, elimination_round := "" })
                        (fun t => rfl),
                      idsOf_updTeam _ _ (fun t =>
                        { t with elimination_round := "" }) (fun t => rfl),
                      idsOf_updTeam _ _ (fun t =>
                        { t with current_points := pl.points_earned.getD 0 })
                        (fun t => rfl),
                      idsOf_updTeam _ _ (fun t =>
                        { t with current_points := pw.points_earned.getD 0 })
                        (fun t => rfl)]
                    exact (hts2 _).1
                  · rw [sumT_updTeam_const _ _ (fun t =>
                        { t with eliminated := false, elimination_round := "" })
                        (fun t => rfl),
                      sumT_updTeam_const _ _ (fun t =>
                        { t with elimination_round := "" }) (fun t => rfl),
                      sumT_updTeam_const _ _ (fun t =>
                        { t with current_points := pl.points_earned.getD 0 })
                        (fun t => rfl),
                      sumT_updTeam_const _ _ (fun t =>
                        { t with current_points := pw.points_earned.getD 0 })
                        (fun t => rfl)]
                    exact (hts2 _).2
            · rw [if_neg hrfi]
              cases hprev : prevKnockoutWin s.ledger tw.id m.id with
              | none =>
                refine hgen _ ?_ ?_
                · rw [idsOf_updTeam _ _ (fun t =>
                      { t with current_points := m.points_earned.getD 0,
                               eliminated := false,
                               elimination_round := "" }) (fun t => rfl),
                    idsOf_updTeam _ _ (fun t =>
                      { t with current_points := t.total_score })
                      (fun t => rfl)]
                  exact (hts2 _).1
                · rw [sumT_updTeam_const _ _ (fun t =>
                      { t with current_points := m.points_earned.getD 0,
                               eliminated := false,
                               elimination_round := "" }) (fun t => rfl),
                    sumT_updTeam_const _ _ (fun t =>
                      { t with current_points := t.total_score })
                      (fun t => rfl)]
                  exact (hts2 _).2
              | some pm =>
                refine hgen _ ?_ ?_
                · rw [idsOf_updTeam _ _ (fun t =>
                      { t with current_points := m.points_earned.getD 0,
                               eliminated := false,
                               elimination_round := "" }) (fun t => rfl),
                    idsOf_updTeam _ _ (fun t =>
                      { t with current_points := pm.points_earned.getD 0 })
                      (fun t => rfl)]
                  exact (hts2 _).1
                · rw [sumT_updTeam_const _ _ (fun t =>
                      { t with current_points := m.points_earned.getD 0,
                               eliminated := false,
                               elimination_round := "" }) (fun t => rfl),
                    sumT_updTeam_const _ _ (fun t =>
                      { t with current_points := pm.points_earned.getD 0 })
                      (fun t => rfl)]
                  exact (hts2 _).2

theorem idsOf_mkTeams (roster : List RosterRow) :
    ∀ i, idsOf (mkTeams i roster) = List.range' i roster.length := by
  induction roster with
  | nil => intro i; rfl
  | cons r rs ih =>
    intro i
    show idsOf (mkTeams i (r :: rs)) = List.range' i (rs.length + 1)
    rw [List.range'_succ]
    simp only [mkTeams, idsOf, List.map_cons]
    rw [show List.map Team.id (mkTeams (i + 1) rs) = idsOf (mkTeams (i + 1) rs)
        from rfl,
      ih (i + 1)]

theorem sumT_mkTeams (roster : List RosterRow) :
    ∀ i, sumT (mkTeams i roster) = 0 := by
  induction roster with
  | nil => intro i; rfl
  | cons r rs ih =>
    intro i
    show sumT (mkTeams i (r :: rs)) = 0
    simp only [mkTeams]
    rw [sumT_cons, ih (i + 1)]
    norm_num

theorem invAll_init (roster : List RosterRow) : InvAll (init_teams roster) := by
  refine ⟨?_, ?_, ?_⟩
  · show (idsOf (mkTeams 1 roster)).Nodup
    rw [idsOf_mkTeams roster 1]
    exact List.nodup_range' 1 roster.length
  · intro m hm
    cases hm
  · show sumT (mkTeams 1 roster) = _
    rw [sumT_mkTeams roster 1]
    rfl

theorem invAll_reachable (s : AppState) (h : Reachable s) : InvAll s := by
  induction h with
  | base roster => exact invAll_init roster
  | step s2 op _ ih =>
    cases op with
    | recordWin wc lc ws ls => exact inv_record_match s2 wc lc ws ls ih
    | recordDraw c1 c2 s1 g2 => exact inv_record_draw s2 c1 c2 s1 g2 ih
    | undoLast => exact inv_undo s2 ih
    | advanceKnockout names => exact inv_advance s2 names ih
    | setRound name => exact inv_set_round s2 name false ih

/-! ### Claim theorems -/

/-- C9: when no `TournamentState` row exists, `getCurrentRound` returns
"Group Stage" rather than failing. -/
theorem C9_default_round (s : AppState) (h : s.tournamentState = none) :
    get_current_round s = "Group Stage" := by
  unfold get_current_round
  rw [h]

/-- Witness for C9 at a concrete record-less state. -/
theorem C9_witness :
    c9State.tournamentState = none ∧
    get_current_round c9State = "Group Stage" :=
  ⟨rfl, C9_default_round c9State rfl⟩

/-- C8: the scoring formula is exactly `round(A * e^(-k * (rank - 1)))`
with `A = 64`, `k = 0.1`, and it is non-increasing in the rank. -/
theorem C8_scoring_formula (rank : Nat) (h : 1 ≤ rank) :
    calculate_starting_points rank = ScoringFormula rank ∧
    calculate_starting_points (rank + 1) ≤ calculate_starting_points rank := by
  refine ⟨rfl, ?_⟩
  unfold calculate_starting_points
  rw [round_eq, round_eq]
  apply Int.floor_le_floor
  have hcast : ((rank + 1 : Nat) : ℝ) = (rank : ℝ) + 1 := by push_cast; ring
  rw [hcast]
  have hexp : Real.exp (-(0.1 : ℝ) * ((rank : ℝ) + 1 - 1)) ≤
      Real.exp (-(0.1 : ℝ) * ((rank : ℝ) - 1)) := by
    apply Real.exp_le_exp.mpr
    nlinarith [Nat.cast_nonneg (α := ℝ) rank]
  nlinarith [hexp]

/-- Witness for C8 at rank 1. -/
theorem C8_witness :
    calculate_starting_points 1 = ScoringFormula 1 ∧
    calculate_starting_points 2 ≤ calculate_starting_points 1 :=
  C8_scoring_formula 1 (by decide)

/-- C5: a mutating call that returns a failure leaves the whole state
exactly as it was before the call. -/
theorem C5_failure_atomicity (s : AppState) (op : Op) (e : Err)
    (h : (applyOpE s op).1 = Except.error e) : (applyOpE s op).2 = s := by
  rcases applyOpE_shape s op with h2 | h2
  · exact h2
  · rw [h2] at h
    exact absurd h (by simp)

/-- Witness for C5: undo on an empty ledger fails and changes nothing. -/
theorem C5_witness :
    (applyOpE c5State Op.undoLast).1 = Except.error Err.nothingToUndo ∧
    (applyOpE c5State Op.undoLast).2 = c5State :=
  ⟨rfl, C5_failure_atomicity c5State Op.undoLast Err.nothingToUndo rfl⟩

/-- C1: replaying initialize; set round Semi-finals; A beats B; C beats D;
set round Third Place; B beats D; undo.  Before the Third Place match B is
not eliminated, the record and the undo both succeed, yet after the undo B
(the Third Place winner, team id 2) is still flagged eliminated: the undo
fails to restore the winner's `eliminated` field. -/
theorem C1_third_place_undo_leaves_winner_eliminated :
    ((teamById c1s4.teams 2).map Team.country) = some "B" ∧
    ((teamById c1s4.teams 2).map Team.eliminated) = some false ∧
    (record_match c1s4 "B" "D" none none).1 = Except.ok () ∧
    ((c1s5.ledger.getLast?).map Match.round_name) = some "Third Place" ∧
    (undo_last_match c1s5).1 = Except.ok () ∧
    ((teamById c1s6.teams 2).map Team.eliminated) = some true :=
  ⟨rfl, rfl, rfl, rfl, rfl, rfl⟩

/-- C2 (counterexample): with 73 recorded group-stage matches and all
other preconditions met, `advanceToKnockout` succeeds instead of failing
with `GroupStageIncomplete`. -/
theorem C2_counterexample_73_matches :
    get_current_round (stState 32 73) = "Group Stage" ∧
    c2Names.length = 32 ∧
    (∀ c ∈ c2Names, (findTeam (stState 32 73).teams c).isSome) ∧
    groupMatchCount (stState 32 73) = 73 ∧
    (advance_to_knockout (stState 32 73) c2Names).1 = Except.ok () :=
  ⟨by decide, by decide, by decide, by decide, by rfl⟩

/-- C2 (amended): under the stated preconditions `advanceToKnockout`
succeeds exactly when at least 72 group-stage matches exist in the
ledger, and fails with `GroupStageIncomplete` exactly when fewer than 72
exist. -/
theorem C2_advance_group_count (s : AppState) (names : List String)
    (hr : get_current_round s = "Group Stage")
    (hn : names.length = 32)
    (hex : ∀ c ∈ names, (findTeam s.teams c).isSome) :
    ((advance_to_knockout s names).1 = Except.ok () ↔
      72 ≤ groupMatchCount s) ∧
    (groupMatchCount s < 72 →
      (advance_to_knockout s names).1 = Except.error Err.groupStageIncomplete) := by
  have hall : names.all (fun c => (findTeam s.teams c).isSome) = true := by
    rw [List.all_eq_true]
    exact hex
  unfold advance_to_knockout
  rw [hr]
  by_cases h72 : groupMatchCount s < 72
  · constructor
    · simp only [h72]
      constructor
      · intro hc
        simp at hc
      · intro hc
        omega
    · intro _
      simp [h72]
  · constructor
    · simp [h72, hn, hall]
      omega
    · intro hlt
      exact absurd hlt h72

/-- Witness for C2 (amended) at a concrete 32-team state with exactly 72
group matches. -/
theorem C2_witness :
    72 ≤ groupMatchCount (stState 32 72) ∧
    (advance_to_knockout (stState 32 72) c2Names).1 = Except.ok () := by
  refine ⟨by decide, ?_⟩
  exact (C2_advance_group_count (stState 32 72) c2Names (by decide) (by decide)
    (by decide)).1.mpr (by decide)

/-- C3 (counterexample): `advanceToKnockout` succeeds with a 32-name list
containing a duplicate while 72 group matches exist, yet 31 — not 32 —
teams remain active afterwards. -/
theorem C3_counterexample_duplicate_names :
    get_current_round (stState 32 72) = "Group Stage" ∧
    groupMatchCount (stState 32 72) = 72 ∧
    c3Names.length = 32 ∧
    (advance_to_knockout (stState 32 72) c3Names).1 = Except.ok () ∧
    activeCount (advance_to_knockout (stState 32 72) c3Names).2 = 31 ∧
    ¬ activeCount (advance_to_knockout (stState 32 72) c3Names).2 = 32 :=
  ⟨by decide, by decide, by decide, by rfl, by decide, by decide⟩

/-- C3 (amended): when the 32 advancing names are distinct, each resolves
to an existing non-eliminated team, team countries are unique and 72
group matches exist, a successful `advanceToKnockout` eliminates every
team not in the list with label "Group Stage", floors every advancing
team's stake at `max 1.0 total_score`, sets the round to "Round of 32",
and leaves exactly 32 active teams. -/
theorem C3_advance_success_effects (s : AppState) (names : List String)
    (hr : get_current_round s = "Group Stage")
    (hgm : groupMatchCount s = 72)
    (hn : names.length = 32)
    (hnd : names.Nodup)
    (hcn : (s.teams.map Team.country).Nodup)
    (hex : ∀ c ∈ names, ∃ t ∈ s.teams, t.country = c ∧ t.eliminated = false) :
    (advance_to_knockout s names).1 = Except.ok () ∧
    (advance_to_knockout s names).2.tournamentState = some "Round of 32" ∧
    (∀ t ∈ s.teams, t.country ∉ names →
      ({ t with eliminated := true, elimination_round := "Group Stage" } : Team)
        ∈ (advance_to_knockout s names).2.teams) ∧
    (∀ t ∈ s.teams, t.country ∈ names →
      ({ t with current_points := max 1.0 t.total_score } : Team)
        ∈ (advance_to_knockout s names).2.teams) ∧
    activeCount (advance_to_knockout s names).2 = 32 := by
  have hex2 : names.all (fun c => (findTeam s.teams c).isSome) = true := by
    rw [List.all_eq_true]
    intro c hc
    obtain ⟨t, ht, hceq, _⟩ := hex c hc
    rw [findTeam]
    simp only [List.find?_isSome]
    exact ⟨t, ht, by simp [hceq]⟩
  have heq : advance_to_knockout s names =
      (Except.ok (), { s with
        teams := s.teams.map (fun t =>
          if t.country ∉ names then
            { t with eliminated := true, elimination_round := "Group Stage" }
          else { t with current_points := max 1.0 t.total_score }),
        tournamentState := some "Round of 32" }) := by
    unfold advance_to_knockout
    rw [hr]
    simp [hgm, hn, hex2, set_current_round, ROUNDS]
  rw [heq]
  refine ⟨rfl, rfl, ?_, ?_, ?_⟩
  · intro t ht hnm
    have hm := List.mem_map_of_mem (fun t =>
      if t.country ∉ names then
        ({ t with eliminated := true, elimination_round := "Group Stage" } : Team)
      else { t with current_points := max 1.0 t.total_score }) ht
    simpa [hnm] using hm
  · intro t ht hm2
    have hm := List.mem_map_of_mem (fun t =>
      if t.country ∉ names then
        ({ t with eliminated := true, elimination_round := "Group Stage" } : Team)
      else { t with current_points := max 1.0 t.total_score }) ht
    simpa [hm2] using hm
  · show (List.filter _ _).length = 32
    rw [← List.countP_eq_length_filter, List.countP_map]
    have hcgr : s.teams.countP ((fun t => !t.eliminated) ∘ (fun t =>
        if t.country ∉ names then
          ({ t with eliminated := true, elimination_round := "Group Stage" } : Team)
        else { t with current_points := max 1.0 t.total_score })) =
        s.teams.countP fun t => decide (t.country ∈ names) := by
      apply List.countP_congr
      intro t ht
      by_cases hm : t.country ∈ names
      · have hact := active_of_named s.teams names hcn hex ht hm
        simp [hm, hact]
      · simp [hm]
    rw [hcgr, countP_names s.teams names hnd hcn
      (fun c hc => (hex c hc).imp fun t htp => ⟨htp.1, htp.2.1⟩)]
    exact hn

/-- Witness for C3 (amended) at a concrete 32-team state with 72 group
matches and the 32 distinct names. -/
theorem C3_witness :
    (advance_to_knockout (stState 32 72) c2Names).1 = Except.ok () ∧
    (advance_to_knockout (stState 32 72) c2Names).2.tournamentState =
      some "Round of 32" ∧
    activeCount (advance_to_knockout (stState 32 72) c2Names).2 = 32 := by
  have h := C3_advance_success_effects (stState 32 72) c2Names (by decide)
    (by decide) (by decide) (by decide) (by decide) (by decide)
  exact ⟨h.1, h.2.1, h.2.2.2.2⟩

/-- C4: effects of a successful Semi-finals win between two distinct
active teams: `points_earned` is the loser's pre-match `current_points`
and is stored in the appended ledger entry; the winner gains it on
`total_score` and takes it as `current_points`; the loser takes a loss,
keeps 75% of its stake, gets the transient third-place label and is not
eliminated. -/
theorem C4_semifinal_win_effects (s : AppState) (wc lc : String)
    (tw tl : Team) (ws ls : Option Int)
    (hr : get_current_round s = "Semi-finals")
    (hw : findTeam s.teams wc = some tw)
    (hl : findTeam s.teams lc = some tl)
    (hid : tw.id ≠ tl.id)
    (hwe : tw.eliminated = false)
    (hle : tl.eliminated = false) :
    (record_match s wc lc ws ls).1 = Except.ok () ∧
    (record_match s wc lc ws ls).2.ledger = s.ledger ++
      [{ id := s.nextMatchId, match_number := s.ledger.length + 1,
         match_type := "win", round_name := "Semi-finals",
         team1_id := tw.id, team2_id := tl.id, winner_id := some tw.id,
         points_earned := some tl.current_points, team1_earned := none,
         team2_earned := none, team1_score := ws, team2_score := ls }] ∧
    ({ tw with total_score := tw.total_score + tl.current_points,
               wins := tw.wins + 1,
               current_points := tl.current_points } : Team)
      ∈ (record_match s wc lc ws ls).2.teams ∧
    ({ tl with losses := tl.losses + 1,
               current_points := tl.current_points * 0.75,
               elimination_round := "Semi-finals (Available for 3rd Place)" } : Team)
      ∈ (record_match s wc lc ws ls).2.teams ∧
    ({ tl with losses := tl.losses + 1,
               current_points := tl.current_points * 0.75,
               elimination_round := "Semi-finals (Available for 3rd Place)" } : Team).eliminated
      = false := by
  have hwm : tw ∈ s.teams := List.mem_of_find?_eq_some hw
  have hlm : tl ∈ s.teams := List.mem_of_find?_eq_some hl
  have heq : record_match s wc lc ws ls =
      (Except.ok (), { s with
        teams := updTeam (updTeam (updTeam (updTeam s.teams tw.id
            (fun t => { t with total_score := t.total_score + tl.current_points,
                               wins := t.wins + 1 }))
            tl.id (fun t => { t with losses := t.losses + 1 }))
            tw.id (fun t => { t with current_points := tl.current_points }))
            tl.id (fun t => { t with current_points := t.current_points * 0.75,
                                     elimination_round := "Semi-finals (Available for 3rd Place)" }),
        ledger := s.ledger ++
          [{ id := s.nextMatchId, match_number := s.ledger.length + 1,
             match_type := "win", round_name := "Semi-finals",
             team1_id := tw.id, team2_id := tl.id, winner_id := some tw.id,
             points_earned := some tl.current_points, team1_earned := none,
             team2_earned := none, team1_score := ws, team2_score := ls }],
        nextMatchId := s.nextMatchId + 1 }) := by
    unfold record_match
    rw [hw, hl, hr]
    simp only [hwe, hle]
    rfl
  rw [heq]
  have hw1 := mem_updTeam_of_eq hwm rfl
    (fun t => { t with total_score := t.total_score + tl.current_points,
                       wins := t.wins + 1 })
  have hw2 := mem_updTeam_of_ne hw1 hid (fun t => { t with losses := t.losses + 1 })
  have hw3 := mem_updTeam_of_eq hw2 rfl
    (fun t => { t with current_points := tl.current_points })
  have hw4 := mem_updTeam_of_ne hw3 hid
    (fun t => { t with current_points := t.current_points * 0.75,
                       elimination_round := "Semi-finals (Available for 3rd Place)" })
  have hl1 := mem_updTeam_of_ne hlm (Ne.symm hid)
    (fun t => { t with total_score := t.total_score + tl.current_points,
                       wins := t.wins + 1 })
  have hl2 := mem_updTeam_of_eq hl1 rfl (fun t => { t with losses := t.losses + 1 })
  have hl3 := mem_updTeam_of_ne hl2 (Ne.symm hid)
    (fun t => { t with current_points := tl.current_points })
  have hl4 := mem_updTeam_of_eq hl3 rfl
    (fun t => { t with current_points := t.current_points * 0.75,
                       elimination_round := "Semi-finals (Available for 3rd Place)" })
  exact ⟨rfl, rfl, hw4, hl4, hle⟩

/-- Witness for C4: Semi-finals, winner stake 40 versus loser stake 30
gives the winner 30 and the loser 22.5 with the transient label, not
eliminated. -/
theorem C4_witness :
    (record_match c4State "A" "B" none none).1 = Except.ok () ∧
    ({ c4A with total_score := 30, wins := 1, current_points := 30 } : Team)
      ∈ (record_match c4State "A" "B" none none).2.teams ∧
    ({ c4B with losses := 1, current_points := 22.5,
                elimination_round := "Semi-finals (Available for 3rd Place)" } : Team)
      ∈ (record_match c4State "A" "B" none none).2.teams ∧
    ({ c4B with losses := 1, current_points := 22.5,
                elimination_round := "Semi-finals (Available for 3rd Place)" } : Team).eliminated
      = false := by
  have h := C4_semifinal_win_effects c4State "A" "B" c4A c4B none none rfl rfl
    rfl (by decide) rfl rfl
  refine ⟨h.1, ?_, ?_, rfl⟩
  · have he : ({ c4A with total_score := c4A.total_score + c4B.current_points,
                          wins := c4A.wins + 1,
                          current_points := c4B.current_points } : Team) =
        { c4A with total_score := 30, wins := 1, current_points := 30 } := by
      simp [c4A, c4B, simpleTeam, Team.mk.injEq]
    exact he ▸ h.2.2.1
  · have he : ({ c4B with losses := c4B.losses + 1,
                          current_points := c4B.current_points * 0.75,
                          elimination_round := "Semi-finals (Available for 3rd Place)" } : Team) =
        { c4B with losses := 1, current_points := 22.5,
                   elimination_round := "Semi-finals (Available for 3rd Place)" } := by
      simp [c4B, simpleTeam, Team.mk.injEq]
      norm_num
    exact he ▸ h.2.2.2.1

/-- C6: a draw outside Group Stage fails with `InvalidRoundForDraw`; a
successful draw gives each team half of the opponent's `base_points` on
`total_score`, one draw each, and the ledger entry stores the two earned
values separately. -/
theorem C6_record_draw_spec :
    (∀ (s : AppState) (c1 c2 : String) (g1 g2 : Option Int),
        get_current_round s ≠ "Group Stage" →
        (record_draw s c1 c2 g1 g2).1 = Except.error Err.invalidRoundForDraw) ∧
    (∀ (s : AppState) (c1 c2 : String) (g1 g2 : Option Int) (t1 t2 : Team),
        get_current_round s = "Group Stage" →
        findTeam s.teams c1 = some t1 → findTeam s.teams c2 = some t2 →
        t1.id ≠ t2.id → t1.eliminated = false → t2.eliminated = false →
        (record_draw s c1 c2 g1 g2).1 = Except.ok () ∧
        ({ t1 with total_score := t1.total_score + (t2.base_points : ℚ) / 2,
                   draws := t1.draws + 1 } : Team)
          ∈ (record_draw s c1 c2 g1 g2).2.teams ∧
        ({ t2 with total_score := t2.total_score + (t1.base_points : ℚ) / 2,
                   draws := t2.draws + 1 } : Team)
          ∈ (record_draw s c1 c2 g1 g2).2.teams ∧
        (record_draw s c1 c2 g1 g2).2.ledger = s.ledger ++
          [{ id := s.nextMatchId, match_number := s.ledger.length + 1,
             match_type := "draw", round_name := "Group Stage",
             team1_id := t1.id, team2_id := t2.id, winner_id := none,
             points_earned := none,
             team1_earned := some ((t2.base_points : ℚ) / 2),
             team2_earned := some ((t1.base_points : ℚ) / 2),
             team1_score := g1, team2_score := g2 }]) := by
  constructor
  · intro s c1 c2 g1 g2 hr
    unfold record_draw
    simp [hr]
  · intro s c1 c2 g1 g2 t1 t2 hr h1 h2 hid h1e h2e
    have h1m : t1 ∈ s.teams := List.mem_of_find?_eq_some h1
    have h2m : t2 ∈ s.teams := List.mem_of_find?_eq_some h2
    have heq : record_draw s c1 c2 g1 g2 =
        (Except.ok (), { s with
          teams := updTeam (updTeam s.teams t1.id
              (fun t => { t with total_score := t.total_score + (t2.base_points : ℚ) / 2,
                                 draws := t.draws + 1 }))
              t2.id (fun t => { t with total_score := t.total_score + (t1.base_points : ℚ) / 2,
                                       draws := t.draws + 1 }),
          ledger := s.ledger ++
            [{ id := s.nextMatchId, match_number := s.ledger.length + 1,
               match_type := "draw", round_name := "Group Stage",
               team1_id := t1.id, team2_id := t2.id, winner_id := none,
               points_earned := none,
               team1_earned := some ((t2.base_points : ℚ) / 2),
               team2_earned := some ((t1.base_points : ℚ) / 2),
               team1_score := g1, team2_score := g2 }],
          nextMatchId := s.nextMatchId + 1 }) := by
      unfold record_draw
      rw [h1, h2, hr]
      simp only [h1e, h2e]
      rfl
    rw [heq]
    have m1 := mem_updTeam_of_eq h1m rfl
      (fun t => { t with total_score := t.total_score + (t2.base_points : ℚ) / 2,
                         draws := t.draws + 1 })
    have m1b := mem_updTeam_of_ne m1 hid
      (fun t => { t with total_score := t.total_score + (t1.base_points : ℚ) / 2,
                         draws := t.draws + 1 })
    have m2 := mem_updTeam_of_ne h2m (Ne.symm hid)
      (fun t => { t with total_score := t.total_score + (t2.base_points : ℚ) / 2,
                         draws := t.draws + 1 })
    have m2b := mem_updTeam_of_eq m2 rfl
      (fun t => { t with total_score := t.total_score + (t1.base_points : ℚ) / 2,
                         draws := t.draws + 1 })
    exact ⟨rfl, m1b, m2b, rfl⟩

/-- Witness for C6: the failure case at a "Final"-round state and the
success case at a concrete Group Stage draw between base-10 and base-14
teams (earning 7 and 5). -/
theorem C6_witness :
    (record_draw c6FinalState "E" "F" none none).1 =
      Except.error Err.invalidRoundForDraw ∧
    (record_draw c6State "E" "F" none none).1 = Except.ok () ∧
    ({ c6A with total_score := 7, draws := 1 } : Team)
      ∈ (record_draw c6State "E" "F" none none).2.teams ∧
    ({ c6B with total_score := 5, draws := 1 } : Team)
      ∈ (record_draw c6State "E" "F" none none).2.teams ∧
    ((record_draw c6State "E" "F" none none).2.ledger.map Match.team1_earned)
      = [some 7] ∧
    ((record_draw c6State "E" "F" none none).2.ledger.map Match.team2_earned)
      = [some 5] := by
  have hfail := C6_record_draw_spec.1 c6FinalState "E" "F" none none (by decide)
  have h := C6_record_draw_spec.2 c6State "E" "F" none none c6A c6B rfl rfl rfl
    (by decide) rfl rfl
  refine ⟨hfail, h.1, ?_, ?_, ?_, ?_⟩
  · have he : ({ c6A with total_score := c6A.total_score + (c6B.base_points : ℚ) / 2,
                          draws := c6A.draws + 1 } : Team) =
        { c6A with total_score := 7, draws := 1 } := by
      simp [c6A, c6B, simpleTeam, Team.mk.injEq]
      norm_num
    exact he ▸ h.2.1
  · have he : ({ c6B with total_score := c6B.total_score + (c6A.base_points : ℚ) / 2,
                          draws := c6B.draws + 1 } : Team) =
        { c6B with total_score := 5, draws := 1 } := by
      simp [c6A, c6B, simpleTeam, Team.mk.injEq]
      norm_num
    exact he ▸ h.2.2.1
  · rw [h.2.2.2]
    simp [c6A, c6B, simpleTeam, c6State]
    norm_num
  · rw [h.2.2.2]
    simp [c6A, c6B, simpleTeam, c6State]
    norm_num

/-- C10: a 32-entry advancing list with a repeated name ("T1" twice) is
accepted when all other preconditions hold, and afterwards only 31 teams
remain active; the teams absent from the list ("T32", "T33") are
eliminated with label "Group Stage". -/
theorem C10_duplicate_advancing_names :
    c3Names.length = 32 ∧
    ¬ c3Names.Nodup ∧
    get_current_round (stState 33 72) = "Group Stage" ∧
    groupMatchCount (stState 33 72) = 72 ∧
    (∀ c ∈ c3Names, (findTeam (stState 33 72).teams c).isSome) ∧
    (advance_to_knockout (stState 33 72) c3Names).1 = Except.ok () ∧
    activeCount (advance_to_knockout (stState 33 72) c3Names).2 = 31 ∧
    ((findTeam (advance_to_knockout (stState 33 72) c3Names).2.teams
        "T32").map Team.eliminated) = some true ∧
    ((findTeam (advance_to_knockout (stState 33 72) c3Names).2.teams
        "T32").map Team.elimination_round) = some "Group Stage" ∧
    ((findTeam (advance_to_knockout (stState 33 72) c3Names).2.teams
        "T33").map Team.eliminated) = some true :=
  ⟨by decide, by decide, by decide, by decide, by decide, by rfl, by decide,
   by decide, by decide, by decide⟩


/-- C7: in every state reachable from a reset through the mutating
interface, the sum of all teams' `total_score` equals the sum over the
ledger of `points_earned` (win entries) plus `team1_earned + team2_earned`
(draw entries); the invariant is preserved by every operation, in
particular by `recordWin`, `recordDraw` and `undoLast`. -/
theorem C7_score_conservation (s : AppState) (h : Reachable s) :
    sumTotal s = ledgerTotal s :=
  (invAll_reachable s h).2.2

/-- Witness for C7 at the freshly reset empty-roster state. -/
theorem C7_witness :
    sumTotal (init_teams []) = ledgerTotal (init_teams []) :=
  C7_score_conservation (init_teams []) (Reachable.base [])

end WC26
